import Mathlib

/-!
Shallow embedding of the piggy_bank LLM invocation layer (`GeminiLLM` in the
TypeScript source) and of the spec's response-validation pipeline.

The asynchronous retry loop of `executeLLM` is modelled as a pure function over
a provider behaviour `Nat → RawOutcome` (what the k-th attempt does: fulfil
with text, reject with an error message, or exceed the per-attempt timeout).
The observable effects of one invocation — the final result, the number of
provider calls made, and the list of backoff delays slept — are collected in an
`ExecTrace`.

String operations (`trim`, `toLowerCase`, substring containment) are defined
structurally over `List Char` so that every definition evaluates inside the
kernel.
-/

namespace PiggyBank

/-- True when the first list is an initial segment of the second. -/
def listStartsWith : List Char → List Char → Bool
  | [], _ => true
  | _ :: _, [] => false
  | p :: ps, c :: cs => p == c && listStartsWith ps cs

/-- True when `pat` occurs contiguously inside the second list. -/
def listContainsSub (pat : List Char) : List Char → Bool
  | [] => listStartsWith pat []
  | c :: cs => listStartsWith pat (c :: cs) || listContainsSub pat cs

/-- JavaScript `s.includes(pat)`: substring containment. -/
def containsSubstr (s pat : String) : Bool :=
  listContainsSub pat.data s.data

/-- JavaScript `s.toLowerCase()` restricted to the ASCII messages of this code. -/
def lowerStr (s : String) : String :=
  String.mk (s.data.map Char.toLower)

/-- Whitespace as stripped by JavaScript `s.trim()` (the characters that occur
in this code's strings). -/
def isWsChar (c : Char) : Bool :=
  c == ' ' || c == '\t' || c == '\n' || c == '\r'

/-- JavaScript `s.trim()`: drop whitespace from both ends. -/
def trimStr (s : String) : String :=
  String.mk (((s.data.dropWhile isWsChar).reverse.dropWhile isWsChar).reverse)

/-! ### The invoker (`GeminiLLM`, src/unnamed/part_000) -/

/-- Source `interface Config`: the constructor argument carries only an API key. -/
structure Config where
  apiKey : String
deriving DecidableEq

/-- Source `interface RetryConfig`. -/
structure RetryConfig where
  maxRetries : Nat
  baseDelayMs : Nat
  maxDelayMs : Nat
  timeoutMs : Nat
deriving DecidableEq

/-- The retry configuration the `GeminiLLM` constructor installs. -/
def defaultRetryConfig : RetryConfig :=
  { maxRetries := 3, baseDelayMs := 1000, maxDelayMs := 10000, timeoutMs := 30000 }

/-- The fields of a `GeminiLLM` instance. -/
structure GeminiLLM where
  apiKey : String
  retryConfig : RetryConfig
deriving DecidableEq

/-- Source `constructor(config: Config)`: stores the api key and hardcodes the
retry configuration. -/
def mkGeminiLLM (config : Config) : GeminiLLM :=
  { apiKey := config.apiKey
    retryConfig :=
      { maxRetries := 3, baseDelayMs := 1000, maxDelayMs := 10000, timeoutMs := 30000 } }

/-- What the provider does on one attempt: the `generateContent` promise
fulfils with text, rejects with an error message, or takes longer than
`timeoutMs` (so the timeout promise of `executeWithTimeout` wins the race). -/
inductive RawOutcome
  | timeout
  | errors (msg : String)
  | returns (text : String)
deriving DecidableEq

/-- The catch-block of `callGeminiAPI`: remap known provider-specific
substrings to clearer messages, otherwise wrap generically. -/
def remapProviderError (errorMessage : String) : String :=
  if containsSubstr errorMessage "API_KEY_INVALID" then
    "Invalid API key provided"
  else if containsSubstr errorMessage "QUOTA_EXCEEDED" then
    "API quota exceeded - please try again later"
  else if containsSubstr errorMessage "SAFETY" then
    "Request blocked by safety filters - please modify your prompt"
  else if containsSubstr errorMessage "PERMISSION_DENIED" then
    "Permission denied - check your API key permissions"
  else
    "Gemini API error: " ++ errorMessage

/-- Source `callGeminiAPI`, over the raw provider result. A fulfilled call
whose text is empty after trimming throws `LLM returned empty response`
inside the `try`, so that message also flows through the catch-block remap. -/
def callGeminiAPI (providerResult : Except String String) : Except String String :=
  match providerResult with
  | Except.ok text =>
    if (trimStr text).length = 0 then
      Except.error (remapProviderError "LLM returned empty response")
    else
      Except.ok text
  | Except.error msg => Except.error (remapProviderError msg)

/-- Source `executeWithTimeout`: race the provider call against a
`timeoutMs` timer; the timer rejection does not pass through
`callGeminiAPI`'s catch block. -/
def executeWithTimeout (cfg : RetryConfig) (outcome : RawOutcome) : Except String String :=
  match outcome with
  | RawOutcome.timeout =>
    Except.error ("LLM request timed out after " ++ toString cfg.timeoutMs ++ "ms")
  | RawOutcome.errors msg => callGeminiAPI (Except.error msg)
  | RawOutcome.returns text => callGeminiAPI (Except.ok text)

/-- Source `isNonRetryableError`: case-insensitive substring check of the
message against five fixed markers. -/
def isNonRetryableError (msg : String) : Bool :=
  let message := lowerStr msg
  containsSubstr message "invalid api key" ||
  containsSubstr message "permission denied" ||
  containsSubstr message "quota exceeded" ||
  containsSubstr message "safety" ||
  containsSubstr message "prompt cannot be empty"

/-- The five markers checked by `isNonRetryableError`. -/
def nonRetryableMarkers : List String :=
  ["invalid api key", "permission denied", "quota exceeded", "safety",
   "prompt cannot be empty"]

/-- The four provider-specific substrings remapped by `callGeminiAPI`. -/
def remapMarkers : List String :=
  ["API_KEY_INVALID", "QUOTA_EXCEEDED", "SAFETY", "PERMISSION_DENIED"]

/-- The terminal message after all attempts are exhausted (source line 81). -/
def aggregateMsg (cfg : RetryConfig) (lastMsg : String) : String :=
  "LLM request failed after " ++ toString (cfg.maxRetries + 1) ++
    " attempts. Last error: " ++ lastMsg

instance {α β : Type} [DecidableEq α] [DecidableEq β] : DecidableEq (Except α β) := fun
  | Except.ok a, Except.ok b =>
    if h : a = b then isTrue (by rw [h]) else isFalse (by intro hc; cases hc; exact h rfl)
  | Except.error a, Except.error b =>
    if h : a = b then isTrue (by rw [h]) else isFalse (by intro hc; cases hc; exact h rfl)
  | Except.ok _, Except.error _ => isFalse (by intro hc; cases hc)
  | Except.error _, Except.ok _ => isFalse (by intro hc; cases hc)

/-- Observable behaviour of one `executeLLM` invocation: the settled result,
how many provider calls were made, and the backoff delays slept (in order). -/
structure ExecTrace where
  result : Except String String
  calls : Nat
  delays : List Nat
deriving DecidableEq

/-- The retry loop of `executeLLM` (source lines 53–81), unrolled on the
number of attempts still allowed after the current one
(`remaining = maxRetries - attempt`, so `remaining = 0` exactly when
`attempt === maxRetries` and the loop would break to the aggregate throw). -/
def runAttempts (cfg : RetryConfig) (provider : Nat → RawOutcome) :
    Nat → Nat → ExecTrace
  | attempt, 0 =>
    match executeWithTimeout cfg (provider attempt) with
    | Except.ok text => { result := Except.ok text, calls := 1, delays := [] }
    | Except.error msg =>
      if isNonRetryableError msg then
        { result := Except.error ("Non-retryable error: " ++ msg), calls := 1, delays := [] }
      else
        { result := Except.error (aggregateMsg cfg msg), calls := 1, delays := [] }
  | attempt, r + 1 =>
    match executeWithTimeout cfg (provider attempt) with
    | Except.ok text => { result := Except.ok text, calls := 1, delays := [] }
    | Except.error msg =>
      if isNonRetryableError msg then
        { result := Except.error ("Non-retryable error: " ++ msg), calls := 1, delays := [] }
      else
        let delay := min (cfg.baseDelayMs * 2 ^ attempt) cfg.maxDelayMs
        let rest := runAttempts cfg provider (attempt + 1) r
        { result := rest.result, calls := 1 + rest.calls, delays := delay :: rest.delays }

/-- Source `executeLLM`: guard against empty prompts, then run the retry loop
from attempt 0 with `maxRetries` further attempts allowed. -/
def executeLLM (cfg : RetryConfig) (provider : Nat → RawOutcome) (prompt : String) :
    ExecTrace :=
  if (trimStr prompt).length = 0 then
    { result := Except.error "Prompt cannot be empty or null", calls := 0, delays := [] }
  else
    runAttempts cfg provider 0 cfg.maxRetries

/-! ### The response validator

The Validator/Parser implementation is not among the provided source files
(only the spec's section 4.2 and its test sentences describe it), so it is
modelled from the spec below. The structural gate (locating a balanced JSON
object in prose) is outside the claims; the completeness/type gate and the
range gate act on the already-extracted object, modelled as an association
list from key to field value. -/

/-- Modelled from the spec: a value found at a key of the extracted object —
a finite number, the non-finite numerics NaN and Infinity, or a non-numeric
value such as a string. -/
inductive FieldVal
  | num (value : Rat)
  | nan
  | infinite
  | str (s : String)
deriving DecidableEq

/-- An extracted JSON-like object: keys mapped to values. -/
def ExtractedObj : Type := List (String × FieldVal)

/-- Modelled from the spec: the classified validator failures
(`MalformedResponseError`, `IncompleteFieldsError` naming the offending
fields, `RangeViolationError` naming the field, the value and the violated
bound). -/
inductive ValidationError
  | malformedResponse (excerpt : String)
  | incompleteFields (fields : List String)
  | rangeViolation (field : String) (value : Rat) (bound : Rat)
deriving DecidableEq

/-- Modelled from the spec: the validated three-field numeric result. -/
structure StructuredEstimate where
  flight : Rat
  roomsPerNight : Rat
  foodDaily : Rat
deriving DecidableEq

/-- First value stored at `key`, if any. -/
def lookupField (obj : ExtractedObj) (key : String) : Option FieldVal :=
  match obj with
  | [] => none
  | (k, v) :: rest => if k = key then some v else lookupField rest key

/-- The three required keys of the extracted object. -/
def requiredFields : List String := ["flight", "roomsPerNight", "foodDaily"]

/-- Whether the value stored for a key is a finite number. -/
def fieldIsFiniteNumber : Option FieldVal → Bool
  | some (FieldVal.num _) => true
  | _ => false

/-- The required keys that are missing or not mapped to a finite number. -/
def badFieldsOf (obj : ExtractedObj) : List String :=
  requiredFields.filter fun k => !(fieldIsFiniteNumber (lookupField obj k))

/-- Modelled from the spec: completeness/type gate — the extracted object
must contain the three required keys mapped to finite numeric values;
missing keys, non-numeric values, NaN, or infinite values fail with
`IncompleteFieldsError` naming the offending field(s). -/
def completenessGate (obj : ExtractedObj) : Except ValidationError (Rat × Rat × Rat) :=
  match lookupField obj "flight", lookupField obj "roomsPerNight",
        lookupField obj "foodDaily" with
  | some (FieldVal.num f), some (FieldVal.num r), some (FieldVal.num d) =>
    Except.ok (f, r, d)
  | _, _, _ => Except.error (ValidationError.incompleteFields (badFieldsOf obj))

/-- Modelled from the spec: range/logic gate — each numeric field must
satisfy `0 <= value <= 100000`; a violation is fatal and produces a
`RangeViolationError` naming the field, the value, and the violated bound
(0 for negative values, 100000 for excessive ones). -/
def rangeGate (f r d : Rat) : Except ValidationError StructuredEstimate :=
  if f < 0 then Except.error (ValidationError.rangeViolation "flight" f 0)
  else if f > 100000 then Except.error (ValidationError.rangeViolation "flight" f 100000)
  else if r < 0 then Except.error (ValidationError.rangeViolation "roomsPerNight" r 0)
  else if r > 100000 then
    Except.error (ValidationError.rangeViolation "roomsPerNight" r 100000)
  else if d < 0 then Except.error (ValidationError.rangeViolation "foodDaily" d 0)
  else if d > 100000 then
    Except.error (ValidationError.rangeViolation "foodDaily" d 100000)
  else Except.ok { flight := f, roomsPerNight := r, foodDaily := d }

/-- Modelled from the spec: the validator on an extracted object — the
completeness/type gate followed by the range/logic gate, short-circuiting
at the first failure. -/
def validateExtracted (obj : ExtractedObj) : Except ValidationError StructuredEstimate :=
  match completenessGate obj with
  | Except.error e => Except.error e
  | Except.ok (f, r, d) => rangeGate f r d

/-! ### Helper lemmas about the retry loop -/

/-- A message containing one of the five markers (case-insensitively) is
classified non-retryable. -/
theorem marker_nonretryable (msg p : String) (hp : p ∈ nonRetryableMarkers)
    (hc : containsSubstr (lowerStr msg) p = true) :
    isNonRetryableError msg = true := by
  simp only [nonRetryableMarkers, List.mem_cons, List.not_mem_nil, or_false] at hp
  rcases hp with rfl | rfl | rfl | rfl | rfl <;>
    simp [isNonRetryableError, hc]

/-- An attempt whose classified error is non-retryable makes the loop abort
at once: one call, no sleep, a wrapped error naming the cause. -/
theorem runAttempts_abort (cfg : RetryConfig) (provider : Nat → RawOutcome)
    (attempt remaining : Nat) (msg : String)
    (h : executeWithTimeout cfg (provider attempt) = Except.error msg)
    (hn : isNonRetryableError msg = true) :
    runAttempts cfg provider attempt remaining =
      { result := Except.error ("Non-retryable error: " ++ msg), calls := 1, delays := [] } := by
  cases remaining <;> simp [runAttempts, h, hn]

/-- With no further attempt allowed, the loop makes exactly one call and
sleeps no delay, whatever the outcome. -/
theorem runAttempts_zero_shape (cfg : RetryConfig) (provider : Nat → RawOutcome)
    (attempt : Nat) :
    (runAttempts cfg provider attempt 0).calls = 1 ∧
      (runAttempts cfg provider attempt 0).delays = [] := by
  simp only [runAttempts]
  cases executeWithTimeout cfg (provider attempt) with
  | ok text => exact ⟨rfl, rfl⟩
  | error msg =>
    by_cases hn : isNonRetryableError msg = true <;> simp [hn]

/-- The i-th delay slept by the loop started at `attempt` is
`min (baseDelayMs * 2 ^ (attempt + i)) maxDelayMs`. -/
theorem runAttempts_delays_eq (cfg : RetryConfig) (provider : Nat → RawOutcome) :
    ∀ remaining attempt i,
      i < (runAttempts cfg provider attempt remaining).delays.length →
      (runAttempts cfg provider attempt remaining).delays[i]? =
        some (min (cfg.baseDelayMs * 2 ^ (attempt + i)) cfg.maxDelayMs) := by
  intro remaining
  induction remaining with
  | zero =>
    intro attempt i h
    rw [(runAttempts_zero_shape cfg provider attempt).2] at h
    simp at h
  | succ r ih =>
    intro attempt i
    simp only [runAttempts]
    cases hx : executeWithTimeout cfg (provider attempt) with
    | ok text => intro h; simp at h
    | error msg =>
      by_cases hn : isNonRetryableError msg = true
      · simp only [hn, if_true]
        intro h; simp at h
      · simp only [hn, Bool.false_eq_true, if_false]
        cases i with
        | zero => intro h; simp only [List.getElem?_cons_zero, Nat.add_zero]
        | succ i' =>
          intro h
          have h' : i' < (runAttempts cfg provider (attempt + 1) r).delays.length := by
            simpa using h
          have hrec := ih (attempt + 1) i' h'
          have harith : attempt + 1 + i' = attempt + (i' + 1) := by omega
          rw [harith] at hrec
          simp only [List.getElem?_cons_succ]
          exact hrec

/-- The loop makes exactly one more call than it sleeps delays. -/
theorem runAttempts_calls_eq (cfg : RetryConfig) (provider : Nat → RawOutcome) :
    ∀ remaining attempt,
      (runAttempts cfg provider attempt remaining).calls =
        (runAttempts cfg provider attempt remaining).delays.length + 1 := by
  intro remaining
  induction remaining with
  | zero =>
    intro attempt
    rw [(runAttempts_zero_shape cfg provider attempt).1,
        (runAttempts_zero_shape cfg provider attempt).2]
    rfl
  | succ r ih =>
    intro attempt
    simp only [runAttempts]
    cases executeWithTimeout cfg (provider attempt) with
    | ok text => rfl
    | error msg =>
      by_cases hn : isNonRetryableError msg = true
      · simp [hn]
      · simp only [hn, if_false, Bool.false_eq_true]
        simp [ih (attempt + 1)]
        omega

/-- If every attempt the loop can reach fails with a retryable error, the
loop exhausts all of them and surfaces the aggregate message built from the
last error. -/
theorem runAttempts_all_fail (cfg : RetryConfig) (provider : Nat → RawOutcome)
    (m : Nat → String) :
    ∀ remaining attempt,
      (∀ k, attempt ≤ k → k ≤ attempt + remaining →
        executeWithTimeout cfg (provider k) = Except.error (m k) ∧
          isNonRetryableError (m k) = false) →
      (runAttempts cfg provider attempt remaining).result =
          Except.error (aggregateMsg cfg (m (attempt + remaining))) ∧
        (runAttempts cfg provider attempt remaining).calls = remaining + 1 := by
  intro remaining
  induction remaining with
  | zero =>
    intro attempt hfail
    obtain ⟨he, hr⟩ := hfail attempt (Nat.le_refl _) (by omega)
    simp [runAttempts, he, hr]
  | succ r ih =>
    intro attempt hfail
    obtain ⟨he, hr⟩ := hfail attempt (Nat.le_refl _) (by omega)
    have hrec := ih (attempt + 1) (fun k hk1 hk2 => hfail k (by omega) (by omega))
    simp only [runAttempts, he, hr, Bool.false_eq_true, if_false]
    constructor
    · rw [hrec.1]
      have : attempt + 1 + r = attempt + (r + 1) := by omega
      rw [this]
    · simp only [hrec.2]
      omega

/-- A successful attempt yields text that is non-empty after trimming
(the empty-result guard of `callGeminiAPI`). -/
theorem executeWithTimeout_ok_nonempty (cfg : RetryConfig) (o : RawOutcome)
    (text : String) (h : executeWithTimeout cfg o = Except.ok text) :
    (trimStr text).length ≠ 0 := by
  cases o with
  | timeout => exact absurd h (by simp [executeWithTimeout])
  | errors msg => exact absurd h (by simp [executeWithTimeout, callGeminiAPI])
  | returns t =>
    by_cases ht : (trimStr t).length = 0
    · exact absurd h (by simp [executeWithTimeout, callGeminiAPI, ht])
    · have : t = text := by
        have := h
        simp [executeWithTimeout, callGeminiAPI, ht] at this
        exact this
      rw [← this]
      exact ht

/-- Any text the loop returns successfully came from a successful attempt,
hence is non-empty after trimming. -/
theorem runAttempts_ok_nonempty (cfg : RetryConfig) (provider : Nat → RawOutcome) :
    ∀ remaining attempt text,
      (runAttempts cfg provider attempt remaining).result = Except.ok text →
      (trimStr text).length ≠ 0 := by
  intro remaining
  induction remaining with
  | zero =>
    intro attempt text h
    revert h
    simp only [runAttempts]
    cases hx : executeWithTimeout cfg (provider attempt) with
    | ok t =>
      intro h
      simp at h
      rw [← h]
      exact executeWithTimeout_ok_nonempty cfg (provider attempt) t hx
    | error msg =>
      by_cases hn : isNonRetryableError msg = true <;> simp [hn]
  | succ r ih =>
    intro attempt text h
    revert h
    simp only [runAttempts]
    cases hx : executeWithTimeout cfg (provider attempt) with
    | ok t =>
      intro h
      simp at h
      rw [← h]
      exact executeWithTimeout_ok_nonempty cfg (provider attempt) t hx
    | error msg =>
      by_cases hn : isNonRetryableError msg = true
      · simp [hn]
      · simp only [hn, if_false, Bool.false_eq_true]
        exact ih (attempt + 1) text

/-- A message containing one of the four provider-specific markers is
remapped by `callGeminiAPI` to one of its four fixed clarified messages, and
each of those is classified non-retryable. -/
theorem remap_marker_nonretryable (msg p : String) (hp : p ∈ remapMarkers)
    (hc : containsSubstr msg p = true) :
    isNonRetryableError (remapProviderError msg) = true := by
  simp only [remapMarkers, List.mem_cons, List.not_mem_nil, or_false] at hp
  unfold remapProviderError
  rcases hp with rfl | rfl | rfl | rfl <;>
    split_ifs <;> decide

/-- A `completenessGate` failure is always an `IncompleteFieldsError` naming
the bad required fields. -/
theorem completenessGate_error_shape (obj : ExtractedObj) (err : ValidationError)
    (h : completenessGate obj = Except.error err) :
    err = ValidationError.incompleteFields (badFieldsOf obj) := by
  unfold completenessGate at h
  split at h
  · exact absurd h (by simp)
  · injection h with he
    exact he.symm

/-! ### Claim theorems -/

/-- C1: a classified error whose message contains, case-insensitively, any of
the five non-retryable markers makes the retry loop abort on the attempt that
produced it: a wrapped error identifying the original cause, no further
provider call, no sleep; in particular, a provider failing with a message
containing "quota exceeded" on every attempt yields exactly 1 provider call. -/
theorem executeLLM_nonretryable_aborts :
    (∀ (cfg : RetryConfig) (provider : Nat → RawOutcome) (attempt remaining : Nat)
       (msg : String),
       executeWithTimeout cfg (provider attempt) = Except.error msg →
       (∃ p, p ∈ nonRetryableMarkers ∧ containsSubstr (lowerStr msg) p = true) →
       runAttempts cfg provider attempt remaining =
         { result := Except.error ("Non-retryable error: " ++ msg),
           calls := 1, delays := [] }) ∧
    (∀ prompt : String, (trimStr prompt).length ≠ 0 →
       executeLLM defaultRetryConfig
           (fun _ => RawOutcome.errors "quota exceeded for project") prompt =
         { result := Except.error
             "Non-retryable error: Gemini API error: quota exceeded for project",
           calls := 1, delays := [] }) := by
  constructor
  · rintro cfg provider attempt remaining msg h ⟨p, hp, hc⟩
    exact runAttempts_abort cfg provider attempt remaining msg h
      (marker_nonretryable msg p hp hc)
  · intro prompt hp
    unfold executeLLM
    rw [if_neg hp]
    decide

theorem executeLLM_nonretryable_aborts_witness :
    executeLLM defaultRetryConfig (fun _ => RawOutcome.errors "quota exceeded for project")
        "Estimate trip costs" =
      { result := Except.error
          "Non-retryable error: Gemini API error: quota exceeded for project",
        calls := 1, delays := [] } :=
  executeLLM_nonretryable_aborts.2 "Estimate trip costs" (by decide)

/-- C2: the delay slept before attempt `k+1` after a retryable failure of
attempt `k` is `min (baseDelayMs * 2 ^ k) maxDelayMs`; no delay is incurred
after the final attempt; with the default configuration, a provider failing
transiently on attempts 0 and 1 and succeeding on attempt 2 yields exactly 3
calls, delays 1000 ms then 2000 ms, and the successful result. -/
theorem executeLLM_backoff_schedule :
    (∀ (cfg : RetryConfig) (provider : Nat → RawOutcome) (prompt : String) (k : Nat),
       k < (executeLLM cfg provider prompt).delays.length →
       (executeLLM cfg provider prompt).delays[k]? =
         some (min (cfg.baseDelayMs * 2 ^ k) cfg.maxDelayMs)) ∧
    (∀ (cfg : RetryConfig) (provider : Nat → RawOutcome) (prompt : String),
       (executeLLM cfg provider prompt).calls = 0 ∨
       (executeLLM cfg provider prompt).calls =
         (executeLLM cfg provider prompt).delays.length + 1) ∧
    (executeLLM defaultRetryConfig
        (fun n => if n < 2 then RawOutcome.errors "temporarily unavailable"
                  else RawOutcome.returns "FLIGHT 450")
        "Estimate trip costs" =
      { result := Except.ok "FLIGHT 450", calls := 3, delays := [1000, 2000] }) := by
  refine ⟨?_, ?_, by decide⟩
  · intro cfg provider prompt k hk
    unfold executeLLM at hk ⊢
    by_cases hp : (trimStr prompt).length = 0
    · rw [if_pos hp] at hk
      simp at hk
    · rw [if_neg hp] at hk ⊢
      have := runAttempts_delays_eq cfg provider cfg.maxRetries 0 k hk
      simpa using this
  · intro cfg provider prompt
    unfold executeLLM
    by_cases hp : (trimStr prompt).length = 0
    · rw [if_pos hp]
      left
      rfl
    · rw [if_neg hp]
      right
      exact runAttempts_calls_eq cfg provider cfg.maxRetries 0

theorem executeLLM_backoff_schedule_witness :
    (executeLLM defaultRetryConfig (fun _ => RawOutcome.timeout)
        "Estimate trip costs").delays[1]? =
      some (min (defaultRetryConfig.baseDelayMs * 2 ^ 1) defaultRetryConfig.maxDelayMs) :=
  executeLLM_backoff_schedule.1 defaultRetryConfig (fun _ => RawOutcome.timeout)
    "Estimate trip costs" 1 (by decide)

/-- C3: an empty or whitespace-only prompt fails immediately with the
empty-prompt error, with zero provider calls and no attempt consumed. -/
theorem executeLLM_empty_prompt (cfg : RetryConfig) (provider : Nat → RawOutcome)
    (prompt : String) (h : (trimStr prompt).length = 0) :
    executeLLM cfg provider prompt =
      { result := Except.error "Prompt cannot be empty or null",
        calls := 0, delays := [] } := by
  unfold executeLLM
  rw [if_pos h]

theorem executeLLM_empty_prompt_witness :
    executeLLM defaultRetryConfig (fun _ => RawOutcome.returns "FLIGHT 450") "   " =
      { result := Except.error "Prompt cannot be empty or null",
        calls := 0, delays := [] } :=
  executeLLM_empty_prompt defaultRetryConfig (fun _ => RawOutcome.returns "FLIGHT 450")
    "   " (by decide)

/-- C4: if every one of the `maxRetries + 1` attempts fails with a retryable
error, `executeLLM` fails with the aggregate error built from the total
attempt count and the last underlying error's message; in particular, a
provider that always exceeds the timeout fails after 4 attempts citing the
timeout message. -/
theorem executeLLM_exhaustion_aggregate :
    (∀ (cfg : RetryConfig) (provider : Nat → RawOutcome) (prompt : String)
       (m : Nat → String),
       (trimStr prompt).length ≠ 0 →
       (∀ k, k ≤ cfg.maxRetries →
         executeWithTimeout cfg (provider k) = Except.error (m k) ∧
           isNonRetryableError (m k) = false) →
       (executeLLM cfg provider prompt).result =
           Except.error ("LLM request failed after " ++ toString (cfg.maxRetries + 1) ++
             " attempts. Last error: " ++ m cfg.maxRetries) ∧
         (executeLLM cfg provider prompt).calls = cfg.maxRetries + 1) ∧
    (executeLLM defaultRetryConfig (fun _ => RawOutcome.timeout) "Estimate trip costs" =
      { result := Except.error
          "LLM request failed after 4 attempts. Last error: LLM request timed out after 30000ms",
        calls := 4, delays := [1000, 2000, 4000] }) := by
  refine ⟨?_, by decide⟩
  intro cfg provider prompt m hp hfail
  unfold executeLLM
  rw [if_neg hp]
  have := runAttempts_all_fail cfg provider m cfg.maxRetries 0
    (fun k _ hk2 => hfail k (by omega))
  simpa [aggregateMsg] using this

theorem executeLLM_exhaustion_aggregate_witness :
    (executeLLM defaultRetryConfig (fun _ => RawOutcome.timeout)
        "What is the flight cost").calls = 4 :=
  (executeLLM_exhaustion_aggregate.1 defaultRetryConfig (fun _ => RawOutcome.timeout)
    "What is the flight cost" (fun _ => "LLM request timed out after 30000ms")
    (by decide)
    (fun _ _ =>
      ⟨(by decide : executeWithTimeout defaultRetryConfig RawOutcome.timeout =
          Except.error "LLM request timed out after 30000ms"),
       (by decide : isNonRetryableError "LLM request timed out after 30000ms" = false)⟩)).2

/-- C5 counterexample: the retry policy is not overridable at construction —
the `GeminiLLM` constructor accepts only an `apiKey`, and the retry
configuration of the constructed instance is one and the same hardcoded
record for every configuration supplied. -/
theorem mkGeminiLLM_retryConfig_constant :
    (fun config => (mkGeminiLLM config).retryConfig) =
      (fun _ : Config => defaultRetryConfig) := rfl

/-- C5 (amended): the retry policy is fixed at construction — for every
configuration supplied to the constructor it equals maxRetries = 3,
baseDelayMs = 1000, maxDelayMs = 10000, timeoutMs = 30000, and nothing
mutates it afterward. -/
theorem mkGeminiLLM_retryConfig_fixed (config : Config) :
    (mkGeminiLLM config).retryConfig =
      { maxRetries := 3, baseDelayMs := 1000, maxDelayMs := 10000,
        timeoutMs := 30000 } := rfl

theorem mkGeminiLLM_retryConfig_fixed_witness :
    (mkGeminiLLM { apiKey := "test-key" }).retryConfig =
      { maxRetries := 3, baseDelayMs := 1000, maxDelayMs := 10000,
        timeoutMs := 30000 } :=
  mkGeminiLLM_retryConfig_fixed { apiKey := "test-key" }

/-- C6: a provider call that succeeds with an empty or whitespace-only text
body is treated as a failed attempt with a retryable classification, never as
a successful empty result; consequently every text `executeLLM` returns
successfully is non-empty after trimming. -/
theorem emptyResponse_retryable_guard :
    (∀ (cfg : RetryConfig) (text : String), (trimStr text).length = 0 →
       executeWithTimeout cfg (RawOutcome.returns text) =
           Except.error "Gemini API error: LLM returned empty response" ∧
         isNonRetryableError "Gemini API error: LLM returned empty response" = false) ∧
    (∀ (cfg : RetryConfig) (provider : Nat → RawOutcome) (prompt text : String),
       (executeLLM cfg provider prompt).result = Except.ok text →
       (trimStr text).length ≠ 0) := by
  constructor
  · intro cfg text ht
    constructor
    · have hstep : executeWithTimeout cfg (RawOutcome.returns text) =
          Except.error (remapProviderError "LLM returned empty response") := by
        simp [executeWithTimeout, callGeminiAPI, ht]
      rw [hstep]
      decide
    · decide
  · intro cfg provider prompt text h
    unfold executeLLM at h
    by_cases hp : (trimStr prompt).length = 0
    · rw [if_pos hp] at h
      exact absurd h (by simp)
    · rw [if_neg hp] at h
      exact runAttempts_ok_nonempty cfg provider cfg.maxRetries 0 text h

theorem emptyResponse_retryable_guard_witness :
    executeWithTimeout defaultRetryConfig (RawOutcome.returns "  ") =
        Except.error "Gemini API error: LLM returned empty response" ∧
      isNonRetryableError "Gemini API error: LLM returned empty response" = false :=
  emptyResponse_retryable_guard.1 defaultRetryConfig "  " (by decide)

/-- C7: for a non-empty prompt and a provider whose first attempt returns
usable text, `executeLLM` makes exactly one provider call, sleeps no delay,
and returns that text unchanged. -/
theorem executeLLM_first_attempt_success (cfg : RetryConfig)
    (provider : Nat → RawOutcome) (prompt text : String)
    (hp : (trimStr prompt).length ≠ 0)
    (h0 : provider 0 = RawOutcome.returns text)
    (ht : (trimStr text).length ≠ 0) :
    executeLLM cfg provider prompt =
      { result := Except.ok text, calls := 1, delays := [] } := by
  have hok : executeWithTimeout cfg (provider 0) = Except.ok text := by
    rw [h0]
    simp [executeWithTimeout, callGeminiAPI, ht]
  unfold executeLLM
  rw [if_neg hp]
  cases cfg.maxRetries <;> simp [runAttempts, hok]

theorem executeLLM_first_attempt_success_witness :
    executeLLM defaultRetryConfig (fun _ => RawOutcome.returns "FLIGHT 450")
        "Estimate the trip" =
      { result := Except.ok "FLIGHT 450", calls := 1, delays := [] } :=
  executeLLM_first_attempt_success defaultRetryConfig
    (fun _ => RawOutcome.returns "FLIGHT 450") "Estimate the trip" "FLIGHT 450"
    (by decide) rfl (by decide)

/-- C8: the validator's range gate admits only field values with
`0 ≤ value ≤ 100000`; a fatal range failure names a required field, its
value, and the violated bound; in particular the spec's example with
`foodDaily = 250000` is rejected with a `RangeViolationError` naming
`foodDaily` and the bound 100000. -/
theorem validator_range_gate :
    (∀ (obj : ExtractedObj) (e : StructuredEstimate),
       validateExtracted obj = Except.ok e →
       0 ≤ e.flight ∧ e.flight ≤ 100000 ∧ 0 ≤ e.roomsPerNight ∧
         e.roomsPerNight ≤ 100000 ∧ 0 ≤ e.foodDaily ∧ e.foodDaily ≤ 100000) ∧
    (∀ (obj : ExtractedObj) (field : String) (v bound : Rat),
       validateExtracted obj =
         Except.error (ValidationError.rangeViolation field v bound) →
       field ∈ requiredFields ∧
         ((bound = 0 ∧ v < 0) ∨ (bound = 100000 ∧ 100000 < v))) ∧
    (validateExtracted
        [("flight", FieldVal.num 450), ("roomsPerNight", FieldVal.num 120),
         ("foodDaily", FieldVal.num 250000)] =
      Except.error (ValidationError.rangeViolation "foodDaily" 250000 100000)) := by
  refine ⟨?_, ?_, by decide⟩
  · intro obj e h
    cases hc : completenessGate obj with
    | error err =>
      have hval : validateExtracted obj = Except.error err := by
        unfold validateExtracted
        rw [hc]
      rw [hval] at h
      exact absurd h (by simp)
    | ok t =>
      obtain ⟨f, r, d⟩ := t
      have hval : validateExtracted obj = rangeGate f r d := by
        unfold validateExtracted
        rw [hc]
      rw [hval] at h
      unfold rangeGate at h
      split_ifs at h with h1 h2 h3 h4 h5 h6
      injection h with he
      subst he
      exact ⟨not_lt.mp h1, not_lt.mp h2, not_lt.mp h3, not_lt.mp h4,
        not_lt.mp h5, not_lt.mp h6⟩
  · intro obj field v bound h
    cases hc : completenessGate obj with
    | error err =>
      have hval : validateExtracted obj = Except.error err := by
        unfold validateExtracted
        rw [hc]
      rw [hval] at h
      injection h with he
      have hshape := completenessGate_error_shape obj err hc
      rw [hshape] at he
      injection he
    | ok t =>
      obtain ⟨f, r, d⟩ := t
      have hval : validateExtracted obj = rangeGate f r d := by
        unfold validateExtracted
        rw [hc]
      rw [hval] at h
      unfold rangeGate at h
      split_ifs at h with h1 h2 h3 h4 h5 h6
      · injection h with he
        injection he with hfld hv hb
        subst hfld; subst hv; subst hb
        exact ⟨by decide, Or.inl ⟨rfl, h1⟩⟩
      · injection h with he
        injection he with hfld hv hb
        subst hfld; subst hv; subst hb
        exact ⟨by decide, Or.inr ⟨rfl, h2⟩⟩
      · injection h with he
        injection he with hfld hv hb
        subst hfld; subst hv; subst hb
        exact ⟨by decide, Or.inl ⟨rfl, h3⟩⟩
      · injection h with he
        injection he with hfld hv hb
        subst hfld; subst hv; subst hb
        exact ⟨by decide, Or.inr ⟨rfl, h4⟩⟩
      · injection h with he
        injection he with hfld hv hb
        subst hfld; subst hv; subst hb
        exact ⟨by decide, Or.inl ⟨rfl, h5⟩⟩
      · injection h with he
        injection he with hfld hv hb
        subst hfld; subst hv; subst hb
        exact ⟨by decide, Or.inr ⟨rfl, h6⟩⟩

theorem validator_range_gate_witness :
    0 ≤ (StructuredEstimate.mk 450 120 60).flight ∧
      (StructuredEstimate.mk 450 120 60).flight ≤ 100000 ∧
      0 ≤ (StructuredEstimate.mk 450 120 60).roomsPerNight ∧
      (StructuredEstimate.mk 450 120 60).roomsPerNight ≤ 100000 ∧
      0 ≤ (StructuredEstimate.mk 450 120 60).foodDaily ∧
      (StructuredEstimate.mk 450 120 60).foodDaily ≤ 100000 :=
  validator_range_gate.1
    [("flight", FieldVal.num 450), ("roomsPerNight", FieldVal.num 120),
     ("foodDaily", FieldVal.num 60)]
    (StructuredEstimate.mk 450 120 60) (by decide)

/-- C9: the validator's completeness/type gate rejects any extracted object
whose required key is missing or mapped to a non-numeric, NaN, or infinite
value, with an `IncompleteFieldsError` naming the offending field; in
particular the spec's example with `roomsPerNight = "expensive"` is rejected
naming `roomsPerNight`. -/
theorem validator_completeness_gate :
    (∀ (obj : ExtractedObj) (field : String),
       field ∈ requiredFields →
       fieldIsFiniteNumber (lookupField obj field) = false →
       validateExtracted obj =
           Except.error (ValidationError.incompleteFields (badFieldsOf obj)) ∧
         field ∈ badFieldsOf obj) ∧
    (validateExtracted
        [("flight", FieldVal.num 450), ("roomsPerNight", FieldVal.str "expensive"),
         ("foodDaily", FieldVal.num 60)] =
      Except.error (ValidationError.incompleteFields ["roomsPerNight"])) := by
  refine ⟨?_, by decide⟩
  intro obj field hf hbad
  have hmem : field ∈ badFieldsOf obj := by
    unfold badFieldsOf
    exact List.mem_filter.mpr ⟨hf, by simp [hbad]⟩
  refine ⟨?_, hmem⟩
  have hcg : completenessGate obj =
      Except.error (ValidationError.incompleteFields (badFieldsOf obj)) := by
    unfold completenessGate
    split
    next f r d heq1 heq2 heq3 =>
      exfalso
      simp only [requiredFields, List.mem_cons, List.not_mem_nil, or_false] at hf
      rcases hf with rfl | rfl | rfl
      · rw [heq1] at hbad
        simp [fieldIsFiniteNumber] at hbad
      · rw [heq2] at hbad
        simp [fieldIsFiniteNumber] at hbad
      · rw [heq3] at hbad
        simp [fieldIsFiniteNumber] at hbad
    all_goals rfl
  unfold validateExtracted
  rw [hcg]

theorem validator_completeness_gate_witness :
    validateExtracted
        [("flight", FieldVal.num 450), ("foodDaily", FieldVal.num 60)] =
        Except.error (ValidationError.incompleteFields
          (badFieldsOf [("flight", FieldVal.num 450), ("foodDaily", FieldVal.num 60)])) ∧
      "roomsPerNight" ∈
        badFieldsOf [("flight", FieldVal.num 450), ("foodDaily", FieldVal.num 60)] :=
  validator_completeness_gate.1
    [("flight", FieldVal.num 450), ("foodDaily", FieldVal.num 60)]
    "roomsPerNight" (by decide) (by decide)

/-- C10: each of the four clarified messages produced by the provider-error
remap contains, case-insensitively, a substring checked by
`isNonRetryableError`, so every remapped provider error carrying one of the
four provider markers is classified non-retryable and aborts the retry loop
without a retry. -/
theorem remapped_provider_errors_nonretryable :
    (isNonRetryableError "Invalid API key provided" = true ∧
       isNonRetryableError "API quota exceeded - please try again later" = true ∧
       isNonRetryableError
           "Request blocked by safety filters - please modify your prompt" = true ∧
       isNonRetryableError "Permission denied - check your API key permissions" = true) ∧
    (∀ (msg p : String), p ∈ remapMarkers → containsSubstr msg p = true →
       isNonRetryableError (remapProviderError msg) = true) ∧
    (∀ (cfg : RetryConfig) (provider : Nat → RawOutcome) (attempt remaining : Nat)
       (msg p : String), p ∈ remapMarkers → containsSubstr msg p = true →
       executeWithTimeout cfg (provider attempt) = Except.error (remapProviderError msg) →
       runAttempts cfg provider attempt remaining =
         { result := Except.error ("Non-retryable error: " ++ remapProviderError msg),
           calls := 1, delays := [] }) := by
  refine ⟨by decide, ?_, ?_⟩
  · intro msg p hp hc
    exact remap_marker_nonretryable msg p hp hc
  · intro cfg provider attempt remaining msg p hp hc h
    exact runAttempts_abort cfg provider attempt remaining (remapProviderError msg) h
      (remap_marker_nonretryable msg p hp hc)

theorem remapped_provider_errors_nonretryable_witness :
    isNonRetryableError (remapProviderError "request failed: SAFETY block") = true :=
  remapped_provider_errors_nonretryable.2.1 "request failed: SAFETY block" "SAFETY"
    (by decide) (by decide)

end PiggyBank
